import Mathlib

/-!
Verification of the interactive worktree picker subsystem
(src/ui/picker.ts of the juanrgon/worktrees repository) against its
natural-language specification.

The TypeScript code is shallowly embedded: JavaScript numbers used as
array indices are modelled as Int (the picker only ever produces small
integers, so no overflow modelling is needed), JavaScript's truncated
remainder operator is Int.tmod, strings are Lean Strings, and the
keystroke-driven controller is a step function on an explicit state
record.  The fuzzy matcher (the external fuzzysort library) is an
arbitrary function parameter, so every theorem quantifies over all
possible matcher behaviours.
-/

namespace WorktreePicker

/-- Constant MAX_VISIBLE_ITEMS = 12 from src/ui/picker.ts. -/
def MAX_VISIBLE_ITEMS : Int := 12

/-- Constant PICKER_PATH_MAX_LENGTH = 64 from src/ui/picker.ts. -/
def PICKER_PATH_MAX_LENGTH : Nat := 64

/-- The color keys of the `colors` table in src/ui/theme.ts. -/
inductive ColorKey where
  | reset
  | bright
  | dim
  | red
  | green
  | yellow
  | blue
  | magenta
  | cyan
  | white
  deriving DecidableEq

/-- The ANSI escape sequences of the `colors` table in src/ui/theme.ts. -/
def colors : ColorKey → String
  | .reset => "\x1b[0m"
  | .bright => "\x1b[1m"
  | .dim => "\x1b[2m"
  | .red => "\x1b[31m"
  | .green => "\x1b[32m"
  | .yellow => "\x1b[33m"
  | .blue => "\x1b[34m"
  | .magenta => "\x1b[35m"
  | .cyan => "\x1b[36m"
  | .white => "\x1b[37m"

/-- `colorize` from src/ui/theme.ts: wrap text in a color escape and a reset. -/
def colorize (text : String) (color : ColorKey) : String :=
  colors color ++ text ++ colors ColorKey.reset

/-- `WorktreeStatus` from src/types.ts. -/
structure WorktreeStatus where
  ahead : Nat
  behind : Nat
  hasChanges : Bool
  modified : Option Nat
  untracked : Option Nat
  deriving DecidableEq

/-- `Worktree` from src/types.ts. -/
structure Worktree where
  path : String
  branch : String
  isMain : Bool
  status : Option WorktreeStatus
  deriving DecidableEq

/-- `WorktreeSuggestion` from src/github.ts. -/
structure WorktreeSuggestion where
  branch : String
  number : Nat
  title : String
  url : Option String
  isDraft : Option Bool
  updatedAt : Option String
  copilotAssigned : Bool
  deriving DecidableEq

/-- `PickerOptions` from src/ui/picker.ts. -/
structure PickerOptions where
  title : Option String
  placeholder : Option String
  currentBranch : Option String
  deriving DecidableEq

/-- `WorktreeSelection` from src/ui/picker.ts: the tagged result type. -/
inductive WorktreeSelection where
  | worktree (worktree : Worktree)
  | suggestion (suggestion : WorktreeSuggestion)
  deriving DecidableEq

/-- `PickerItem` from src/ui/picker.ts: the two variants share the display
fields branch, path, title, number, url and searchText (in that order). -/

inductive PickerItem where
  | worktreeItem (worktree : Worktree)
      (branch path title number url searchText : String)
  | suggestionItem (suggestion : WorktreeSuggestion)
      (branch path title number url searchText : String)
  deriving DecidableEq

/-- JavaScript `s || fallback` on an optional string: `undefined` and the
empty string are falsy. -/

def jsOrString (value : Option String) (fallback : String) : String :=
  match value with
  | some s => if s = "" then fallback else s
  | none => fallback

/-- JavaScript `s.slice(n)` for a non-negative start position. -/
def jsSliceFrom (s : String) (n : Nat) : String :=
  String.mk (s.data.drop n)

/-- JavaScript `s.slice(-n)`: the last `min n (length s)` characters. -/
def jsSliceLast (s : String) (n : Nat) : String :=
  String.mk (s.data.drop (s.data.length - n))

/-- The JavaScript `String.prototype.trim` whitespace set (WhiteSpace and
LineTerminator code points). -/

def jsIsWhitespace (c : Char) : Bool :=
  decide (c.toNat ∈ ([0x9, 0xa, 0xb, 0xc, 0xd, 0x20, 0xa0, 0x1680,
    0x2028, 0x2029, 0x202f, 0x205f, 0x3000, 0xfeff] : List Nat))
  || decide (0x2000 ≤ c.toNat ∧ c.toNat ≤ 0x200a)

/-- JavaScript `String.prototype.trim` on a character list: drop whitespace
from both ends. -/

def jsTrim (s : List Char) : List Char :=
  ((s.dropWhile jsIsWhitespace).reverse.dropWhile jsIsWhitespace).reverse

/-- JavaScript `String.prototype.trim` on a Lean string. -/
def jsTrimString (s : String) : String :=
  String.mk (jsTrim s.data)

/-- `formatStatus` from src/ui/theme.ts. -/
def formatStatus (status : WorktreeStatus) : String :=
  let parts : List String :=
    (if status.hasChanges then [colorize "●" ColorKey.yellow] else []) ++
    (if status.ahead > 0 then [colorize ("↑" ++ toString status.ahead) ColorKey.green] else []) ++
    (if status.behind > 0 then [colorize ("↓" ++ toString status.behind) ColorKey.red] else [])
  String.intercalate " " parts

/-- `formatPath` from src/ui/theme.ts; `home` is `process.env.HOME || ''`. -/
def formatPath (home : String) (path : String) (maxLength : Nat) : String :=
  if path.length ≤ maxLength then path
  else if path.startsWith home then
    let relativePath := "~" ++ jsSliceFrom path home.length
    if relativePath.length ≤ maxLength then relativePath
    else "..." ++ jsSliceLast relativePath (maxLength - 3)
  else "..." ++ jsSliceLast path (maxLength - 3)

/-- The label/hint pair produced by the display formatters in src/ui/picker.ts. -/
structure Display where
  label : String
  hint : String
  deriving DecidableEq

/-- `formatWorktreeDisplay` from src/ui/picker.ts. -/
def formatWorktreeDisplay (home : String) (currentBranch : Option String)
    (worktree : Worktree) : Display :=
  let statusStr := match worktree.status with
    | some st => formatStatus st
    | none => ""
  let marker := if currentBranch = some worktree.branch then colorize "→" ColorKey.cyan else " "
  let branchColor := if worktree.isMain then ColorKey.cyan else ColorKey.green
  let labelParts := [marker ++ " " ++ colorize worktree.branch branchColor] ++
    (if statusStr ≠ "" then [statusStr] else [])
  { label := jsTrimString (String.intercalate " " labelParts),
    hint := colorize (formatPath home worktree.path PICKER_PATH_MAX_LENGTH) ColorKey.dim }

/-- `formatSuggestionDisplay` from src/ui/picker.ts. -/
def formatSuggestionDisplay (suggestion : WorktreeSuggestion) : Display :=
  let marker := colorize "+" ColorKey.green
  let branchColor := if suggestion.isDraft = some true then ColorKey.yellow else ColorKey.magenta
  let branchLabel := colorize suggestion.branch branchColor
  let draftLabel := if suggestion.isDraft = some true then colorize " (draft)" ColorKey.dim else ""
  let prNumber := colorize ("#" ++ toString suggestion.number) ColorKey.cyan
  let copilotLabel := if suggestion.copilotAssigned then colorize " [Copilot]" ColorKey.dim else ""
  let hintSegments :=
    (if suggestion.title ≠ "" then [suggestion.title]
     else match suggestion.url with
       | some url => if url ≠ "" then [url] else ["Remote branch"]
       | none => ["Remote branch"]) ++
    (if suggestion.copilotAssigned then ["Assigned by GitHub Copilot"] else [])
  { label := jsTrimString (marker ++ " " ++ branchLabel ++ draftLabel ++ " " ++
      prNumber ++ copilotLabel),
    hint := colorize (String.intercalate " • " hintSegments) ColorKey.dim }

/-- `buildPickerItems` from src/ui/picker.ts: worktrees first, then
suggestions, each mapped to a `PickerItem` with its search text. -/

def buildPickerItems (worktrees : List Worktree)
    (suggestions : List WorktreeSuggestion) : List PickerItem :=
  (worktrees.map fun worktree =>
    PickerItem.worktreeItem worktree worktree.branch worktree.path "" "" ""
      (worktree.branch ++ " " ++ worktree.path)) ++
  (suggestions.map fun suggestion =>
    PickerItem.suggestionItem suggestion suggestion.branch "" suggestion.title
      ("#" ++ toString suggestion.number)
      (match suggestion.url with | some u => u | none => "")
      (suggestion.branch ++ " " ++ suggestion.title ++ " #" ++
        toString suggestion.number ++ " " ++
        (match suggestion.url with | some u => u | none => "")))

/-- `computeVisibleWindow` from src/ui/picker.ts: center the selection,
then clamp the window to the right edge. -/

def computeVisibleWindow (total : Int) (selectedIndex : Int) : Int × Int :=
  if total ≤ MAX_VISIBLE_ITEMS then (0, total)
  else
    let halfWindow := MAX_VISIBLE_ITEMS / 2
    let start0 := max 0 (selectedIndex - halfWindow)
    let start := if start0 + MAX_VISIBLE_ITEMS > total then total - MAX_VISIBLE_ITEMS else start0
    (start, min (start + MAX_VISIBLE_ITEMS) total)

/-- The environment of one `runLivePicker` session (src/ui/picker.ts):
the immutable item list and options captured by the closures, the HOME
value used by `formatPath`, and the fuzzy matcher.  The matcher stands for
`fuzzysort.go(query, items, ...).map(r => r.obj)` and is an arbitrary
function, so theorems hold for every behaviour of the fuzzysort library. -/

structure LiveEnv where
  items : List PickerItem
  options : PickerOptions
  home : String
  matcher : List Char → List PickerItem → List PickerItem

/-- The mutable local variables of `runLivePicker` (src/ui/picker.ts):
searchQuery, filteredItems, selectionIndex and lastRenderLineCount. -/

structure LiveState where
  searchQuery : List Char
  filteredItems : List PickerItem
  selectionIndex : Int
  lastRenderLineCount : Nat

/-- The filtering half of `updateFilteredItems` (src/ui/picker.ts):
a query that trims to the empty string bypasses the matcher. -/

def filterItems (matcher : List Char → List PickerItem → List PickerItem)
    (searchQuery : List Char) (items : List PickerItem) : List PickerItem :=
  if (jsTrim searchQuery).length = 0 then items else matcher searchQuery items

/-- The clamping half of `updateFilteredItems` (src/ui/picker.ts). -/
def clampSelectionIndex (selectionIndex : Int) (filteredLength : Nat) : Int :=
  if filteredLength = 0 then -1
  else if selectionIndex = -1 then 0
  else if selectionIndex ≥ (filteredLength : Int) then (filteredLength : Int) - 1
  else selectionIndex

/-- `updateFilteredItems` (src/ui/picker.ts): refilter from the full item
list, then clamp the selection index to the new filtered list. -/

def updateFilteredItems (env : LiveEnv) (s : LiveState) : LiveState :=
  let filtered := filterItems env.matcher s.searchQuery env.items
  { s with filteredItems := filtered,
           selectionIndex := clampSelectionIndex s.selectionIndex filtered.length }

/-- Number of clearLine operations issued by `clearPreviousLines`
(src/ui/picker.ts): none on the very first render, otherwise one per line
of the previous frame. -/

def clearPreviousLinesCount (lastRenderLineCount : Nat) : Nat :=
  if lastRenderLineCount = 0 then 0 else lastRenderLineCount

/-- The frame built by `render` (src/ui/picker.ts): header lines, the
visible window of filtered items with scroll indicators, and the result
counter. -/

def renderLines (env : LiveEnv) (s : LiveState) : List String :=
  let title := jsOrString env.options.title "Select a worktree"
  let queryDisplay :=
    if s.searchQuery.length = 0 then colorize "∅" ColorKey.dim
    else colorize (String.mk s.searchQuery) ColorKey.magenta
  let headerLines := [colorize title ColorKey.bright,
    colorize "Type to filter • ↑/↓ move • Enter select • Esc cancel" ColorKey.dim,
    "Search: " ++ queryDisplay, ""]
  let itemLines :=
    if s.filteredItems.length = 0 then [colorize "No matching worktrees found" ColorKey.yellow]
    else
      let window := computeVisibleWindow (s.filteredItems.length : Int) s.selectionIndex
      let start := window.1
      let stop := window.2
      let visibleItems := (s.filteredItems.drop start.toNat).take (stop.toNat - start.toNat)
      let entryLines := visibleItems.enum.flatMap fun p =>
        let actualIndex := start + (p.1 : Int)
        let isSelected := actualIndex = s.selectionIndex
        let display := match p.2 with
          | .worktreeItem worktree _ _ _ _ _ _ =>
              formatWorktreeDisplay env.home env.options.currentBranch worktree
          | .suggestionItem suggestion _ _ _ _ _ _ => formatSuggestionDisplay suggestion
        let pointer := if isSelected then colorize "›" ColorKey.cyan else " "
        let label := if isSelected then colorize display.label ColorKey.bright else display.label
        [pointer ++ " " ++ label] ++
        (if display.hint ≠ "" then
          [("  " ++ (if isSelected then colorize display.hint ColorKey.bright else display.hint))]
         else [])
      (if start > 0 then [colorize "⋮" ColorKey.dim] else []) ++
      entryLines ++
      (if stop < (s.filteredItems.length : Int) then [colorize "⋮" ColorKey.dim] else [])
  let totalLabel := toString s.filteredItems.length ++ "/" ++ toString env.items.length ++
    " result" ++ (if s.filteredItems.length = 1 then "" else "s")
  headerLines ++ itemLines ++ ["", colorize totalLabel ColorKey.dim]

/-- The state effect of `render` (src/ui/picker.ts): emit the frame and
record its line count in lastRenderLineCount. -/

def render (env : LiveEnv) (s : LiveState) : LiveState :=
  { s with lastRenderLineCount := (renderLines env s).length }

/-- `moveSelection` (src/ui/picker.ts): wrap-around move by `delta`, using
JavaScript's truncated remainder twice: ((index + delta) % len + len) % len. -/

def moveSelection (env : LiveEnv) (delta : Int) (s : LiveState) : LiveState :=
  if s.filteredItems.length = 0 then s
  else
    let length : Int := (s.filteredItems.length : Int)
    let nextIndex := Int.tmod (Int.tmod (s.selectionIndex + delta) length + length) length
    render env { s with selectionIndex := nextIndex }

/-- The selection tag built by the Enter branch of `onData`
(src/ui/picker.ts). -/

def selectionOf : PickerItem → WorktreeSelection
  | .worktreeItem worktree _ _ _ _ _ _ => WorktreeSelection.worktree worktree
  | .suggestionItem suggestion _ _ _ _ _ _ => WorktreeSelection.suggestion suggestion

/-- `onData` (src/ui/picker.ts): one keystroke chunk.  The second component
is `none` while the session continues, and `some result` when `cleanup`
resolves the picker (with `none` for cancellation).  `cleanup` leaves the
picker state untouched. -/

def onData (env : LiveEnv) (chunk : List Char) (s : LiveState) :
    LiveState × Option (Option WorktreeSelection) :=
  if chunk = ['\x03'] ∨ chunk = ['\x1b'] then (s, some none)
  else if chunk = ['\x0d'] ∨ chunk = ['\x0a'] then
    if 0 ≤ s.selectionIndex then
      match s.filteredItems.get? s.selectionIndex.toNat with
      | some selected => (s, some (some (selectionOf selected)))
      | none => (s, none)
    else (s, none)
  else if chunk = ['\x7f'] ∨ chunk = ['\x08'] ∨ chunk = ['\x1b', '[', '3', '~'] then
    if s.searchQuery.length > 0 then
      (render env (updateFilteredItems env { s with searchQuery := s.searchQuery.dropLast }), none)
    else (s, none)
  else if chunk = ['\x1b', '[', 'A'] ∨ chunk = ['\x1b', 'O', 'A'] then
    (moveSelection env (-1) s, none)
  else if chunk = ['\x1b', '[', 'B'] ∨ chunk = ['\x1b', 'O', 'B'] then
    (moveSelection env 1 s, none)
  else if chunk = ['\x1b', '[', '5', '~'] then (moveSelection env (-MAX_VISIBLE_ITEMS) s, none)
  else if chunk = ['\x1b', '[', '6', '~'] then (moveSelection env MAX_VISIBLE_ITEMS s, none)
  else if chunk.length = 1 ∧ ' ' ≤ chunk.headD 'a' ∧ chunk.headD 'a' ≤ '~' then
    (render env (updateFilteredItems env { s with searchQuery := s.searchQuery ++ chunk }), none)
  else if ¬ chunk.head? = some '\x1b' then
    let appended := chunk.filter fun c => decide (' ' ≤ c) && decide (c ≤ '~')
    if appended.length > 0 then
      (render env (updateFilteredItems env { s with searchQuery := s.searchQuery ++ appended }), none)
    else (s, none)
  else (s, none)

/-- Initial local variables of `runLivePicker` (src/ui/picker.ts) before
the initial `updateFilteredItems(); render();` pair. -/

def initState (env : LiveEnv) : LiveState :=
  { searchQuery := [],
    filteredItems := env.items,
    selectionIndex := if env.items.length > 0 then 0 else -1,
    lastRenderLineCount := 0 }

/-- Session state after the `updateFilteredItems(); render();` pair that
`runLivePicker` executes before listening for input. -/

def startState (env : LiveEnv) : LiveState :=
  render env (updateFilteredItems env (initState env))

/-- Fold `onData` over a sequence of input chunks; once `cleanup` resolves
the session, the listener is removed and later chunks are not processed. -/

def processEvents (env : LiveEnv) : List (List Char) → LiveState → LiveState
  | [], s => s
  | chunk :: rest, s =>
    match onData env chunk s with
    | (t, some _) => t
    | (t, none) => processEvents env rest t

/-- The selection-index invariant of the live picker: -1 exactly on an
empty filtered list, otherwise a valid index. -/
def selectionInvariant (s : LiveState) : Prop :=
  if s.filteredItems.length = 0 then s.selectionIndex = -1
  else 0 ≤ s.selectionIndex ∧ s.selectionIndex < (s.filteredItems.length : Int)

/-- A session of consecutive `render` calls with varying content: each call
first erases `clearPreviousLinesCount` lines for the previous frame, then
emits its own frame and stores its line count in the tracker, exactly as
`render` does with the mutable `lastRenderLineCount`.  Each entry is
(lines erased, lines emitted, tracker value after the call). -/
def renderSession : List (LiveEnv × LiveState) → Nat → List (Nat × Nat × Nat)
  | [], _ => []
  | (env, s) :: rest, lastCount =>
    (clearPreviousLinesCount lastCount, (renderLines env s).length,
      (renderLines env s).length) :: renderSession rest (renderLines env s).length

/-- Observable terminal effects of `runLivePicker` entry and its catch
handler (src/ui/picker.ts). -/
inductive TermEffect where
  | setRawMode (enabled : Bool)
  | setEncodingUtf8
  | resumeInput
  | hideCursor
  | showCursor
  | writeFrame
  | addDataListener
  | removeDataListener
  | pauseInput
  deriving DecidableEq

/-- The effect script of the try block of `runLivePicker`, one entry per
statement: setRawMode(true) (guarded by the function check), setEncoding,
resume, hide cursor, updateFilteredItems (no terminal effect), the first
render, attach the data listener. -/

def setupSteps (hasSetRawMode : Bool) : List (List TermEffect) :=
  [if hasSetRawMode then [TermEffect.setRawMode true] else [],
   [TermEffect.setEncodingUtf8],
   [TermEffect.resumeInput],
   [TermEffect.hideCursor],
   [],
   [TermEffect.writeFrame],
   [TermEffect.addDataListener]]

/-- The catch handler of `runLivePicker` (src/ui/picker.ts): restore
cursor visibility, restore the original raw-mode flag (guarded), detach
the data listener, pause stdin. -/

def catchEffects (hasSetRawMode originalRawMode : Bool) : List TermEffect :=
  [TermEffect.showCursor] ++
  (if hasSetRawMode then [TermEffect.setRawMode originalRawMode] else []) ++
  [TermEffect.removeDataListener, TermEffect.pauseInput]

/-- Entry into `runLivePicker` (src/ui/picker.ts).  If `failStep` is
`some k`, the k-th statement of the try block throws after the first k
statements completed their effects; the catch handler then runs and the
promise resolves null (modelled `some none`).  With `failStep = none` the
setup completes and the promise stays pending awaiting input (`none`). -/

def runLivePickerStart (hasSetRawMode originalRawMode : Bool) (failStep : Option Nat) :
    List TermEffect × Option (Option WorktreeSelection) :=
  match failStep with
  | none => ((setupSteps hasSetRawMode).flatten, none)
  | some k => (((setupSteps hasSetRawMode).take k).flatten ++
      catchEffects hasSetRawMode originalRawMode, some none)

/-- The choices handed to the static clack.select prompt by
`fallbackPickWorktree` (src/ui/picker.ts). -/
structure FallbackChoice where
  value : WorktreeSelection
  label : String
  hint : String
  deriving DecidableEq

/-- High-level effects of `pickWorktree` (src/ui/picker.ts): reading the
TTY capability flags at the entry check, engaging the live picker, its
raw-mode request, or showing the static fallback prompt. -/

inductive PickEffect where
  | ttyCheck
  | rawModeRequest
  | livePicker (items : List PickerItem)
  | fallbackPrompt (choices : List FallbackChoice)
  deriving DecidableEq

/-- `isWorktreeSelection` (src/ui/picker.ts): both tagged variants pass. -/
def isWorktreeSelection : WorktreeSelection → Bool
  | .worktree _ => true
  | .suggestion _ => true

/-- The choice list of `fallbackPickWorktree` (src/ui/picker.ts):
worktree choices first, suggestion choices second. -/

def fallbackChoices (home : String) (options : PickerOptions)
    (worktrees : List Worktree) (suggestions : List WorktreeSuggestion) :
    List FallbackChoice :=
  (worktrees.map fun worktree =>
    { value := WorktreeSelection.worktree worktree,
      label := (formatWorktreeDisplay home options.currentBranch worktree).label,
      hint := (formatWorktreeDisplay home options.currentBranch worktree).hint }) ++
  (suggestions.map fun suggestion =>
    { value := WorktreeSelection.suggestion suggestion,
      label := (formatSuggestionDisplay suggestion).label,
      hint := (formatSuggestionDisplay suggestion).hint })

/-- `fallbackPickWorktree` (src/ui/picker.ts).  The user's interaction
with clack.select is modelled by `pick`: `none` is a cancel, `some i`
picks the i-th displayed choice (an out-of-range i, impossible in the real
prompt, also behaves as a cancel). -/

def fallbackPickWorktree (home : String) (options : PickerOptions)
    (worktrees : List Worktree) (suggestions : List WorktreeSuggestion)
    (pick : Option Nat) : List PickEffect × Option WorktreeSelection :=
  let choiceList := fallbackChoices home options worktrees suggestions
  let selected : Option WorktreeSelection :=
    match pick with
    | none => none
    | some i => (choiceList.get? i).map FallbackChoice.value
  ([PickEffect.fallbackPrompt choiceList],
   match selected with
   | none => none
   | some v => if isWorktreeSelection v then some v else none)

/-- `pickWorktree` (src/ui/picker.ts): empty combined input returns null
(before the TTY capability check); a non-interactive terminal routes to
the fallback prompt; otherwise the live picker is engaged on the built
item list (its outcome is the `liveResult` parameter, and `rawModeRequest`
records its raw-mode acquisition). -/

def pickWorktree (stdinTTY stdoutTTY hasSetRawMode : Bool) (home : String)
    (worktrees : List Worktree) (suggestions : List WorktreeSuggestion)
    (options : PickerOptions) (pick : Option Nat)
    (liveResult : Option WorktreeSelection) :
    List PickEffect × Option WorktreeSelection :=
  if worktrees.length = 0 ∧ suggestions.length = 0 then ([], none)
  else if ¬stdinTTY ∨ ¬stdoutTTY ∨ ¬hasSetRawMode then
    let fb := fallbackPickWorktree home options worktrees suggestions pick
    (PickEffect.ttyCheck :: fb.1, fb.2)
  else
    ([PickEffect.ttyCheck, PickEffect.rawModeRequest,
      PickEffect.livePicker (buildPickerItems worktrees suggestions)], liveResult)

/-- A concrete worktree used by witness theorems. -/
def worktreeA : Worktree := { path := "/w/a", branch := "alpha", isMain := true, status := none }

/-- A second concrete worktree used by witness theorems. -/
def worktreeB : Worktree := { path := "/w/b", branch := "beta", isMain := false, status := none }

/-- Concrete picker options used by witness theorems. -/
def optionsEx : PickerOptions := { title := none, placeholder := none, currentBranch := none }

/-- A concrete two-item live-picker environment used by witness theorems;
its matcher drops everything, exercising the refilter-to-empty paths. -/

def envAB : LiveEnv :=
  { items := buildPickerItems [worktreeA, worktreeB] [],
    options := optionsEx,
    home := "",
    matcher := fun _ _ => [] }

/-- JavaScript's truncated remainder stays above `-L` for a positive
modulus `L`. -/
theorem neg_lt_tmod (a : Int) {L : Int} (hL : 0 < L) : -L < Int.tmod a L := by
  rcases Int.le_total 0 a with h | h
  · have h1 := Int.tmod_nonneg L h
    omega
  · have h2 : Int.tmod (-a) L < L := Int.tmod_lt_of_pos (-a) hL
    have h3 : Int.tmod (-a) L = -(Int.tmod a L) := by
      rw [Int.tmod_def, Int.tmod_def, Int.neg_tdiv]
      ring
    omega

/-- The double-remainder idiom `(x % L + L) % L` of src/ui/picker.ts, with
`%` the JavaScript truncated remainder, equals the non-negative Euclidean
remainder. -/

theorem tmod_shift_emod (a L : Int) (hL : 0 < L) :
    Int.tmod (Int.tmod a L + L) L = a % L := by
  have h1 : Int.tmod a L < L := Int.tmod_lt_of_pos a hL
  have h2 : -L < Int.tmod a L := neg_lt_tmod a hL
  rw [Int.tmod_eq_emod (by omega) (le_of_lt hL), Int.tmod_def]
  have h3 : a - L * a.tdiv L + L = a + L * (1 - a.tdiv L) := by ring
  rw [h3, Int.add_mul_emod_self_left]

theorem render_preserves_selection (env : LiveEnv) (s : LiveState) :
    (render env s).selectionIndex = s.selectionIndex := rfl

theorem moveSelection_emod (env : LiveEnv) (delta : Int) (s : LiveState)
    (h : s.filteredItems.length ≠ 0) :
    (moveSelection env delta s).selectionIndex =
      (s.selectionIndex + delta) % (s.filteredItems.length : Int) := by
  unfold moveSelection
  rw [if_neg h]
  exact tmod_shift_emod _ _ (by exact_mod_cast Nat.pos_of_ne_zero h)

theorem onData_upA (env : LiveEnv) (s : LiveState) :
    onData env ['\x1b', '[', 'A'] s = (moveSelection env (-1) s, none) := by
  unfold onData
  rw [if_neg (by decide), if_neg (by decide), if_neg (by decide), if_pos (by decide)]

theorem onData_upO (env : LiveEnv) (s : LiveState) :
    onData env ['\x1b', 'O', 'A'] s = (moveSelection env (-1) s, none) := by
  unfold onData
  rw [if_neg (by decide), if_neg (by decide), if_neg (by decide), if_pos (by decide)]

theorem onData_downB (env : LiveEnv) (s : LiveState) :
    onData env ['\x1b', '[', 'B'] s = (moveSelection env 1 s, none) := by
  unfold onData
  rw [if_neg (by decide), if_neg (by decide), if_neg (by decide), if_neg (by decide),
    if_pos (by decide)]

theorem onData_downO (env : LiveEnv) (s : LiveState) :
    onData env ['\x1b', 'O', 'B'] s = (moveSelection env 1 s, none) := by
  unfold onData
  rw [if_neg (by decide), if_neg (by decide), if_neg (by decide), if_neg (by decide),
    if_pos (by decide)]

theorem onData_pageUp (env : LiveEnv) (s : LiveState) :
    onData env ['\x1b', '[', '5', '~'] s = (moveSelection env (-MAX_VISIBLE_ITEMS) s, none) := by
  unfold onData
  rw [if_neg (by decide), if_neg (by decide), if_neg (by decide), if_neg (by decide),
    if_neg (by decide), if_pos (by decide)]

theorem onData_pageDown (env : LiveEnv) (s : LiveState) :
    onData env ['\x1b', '[', '6', '~'] s = (moveSelection env MAX_VISIBLE_ITEMS s, none) := by
  unfold onData
  rw [if_neg (by decide), if_neg (by decide), if_neg (by decide), if_neg (by decide),
    if_neg (by decide), if_neg (by decide), if_pos (by decide)]

/-- C4: on a non-empty filtered list of length L with the selection at a
valid index i, an Up-arrow chunk (either encoding) moves the selection back
by one, wrapping from 0 to L - 1, and a Down-arrow chunk (either encoding)
moves it forward by one, wrapping from L - 1 to 0. -/

theorem wraparound_navigation (env : LiveEnv) (s : LiveState) (L : Nat) (i : Int)
    (hL : s.filteredItems.length = L) (hpos : 0 < L)
    (hi : s.selectionIndex = i) (h0 : 0 ≤ i) (hiL : i < (L : Int)) :
    ((onData env ['\x1b', '[', 'A'] s).1.selectionIndex =
      if i = 0 then (L : Int) - 1 else i - 1) ∧
    ((onData env ['\x1b', 'O', 'A'] s).1.selectionIndex =
      if i = 0 then (L : Int) - 1 else i - 1) ∧
    ((onData env ['\x1b', '[', 'B'] s).1.selectionIndex =
      if i = (L : Int) - 1 then 0 else i + 1) ∧
    ((onData env ['\x1b', 'O', 'B'] s).1.selectionIndex =
      if i = (L : Int) - 1 then 0 else i + 1) := by
  have hne : s.filteredItems.length ≠ 0 := by omega
  have hup : (s.selectionIndex + -1) % (s.filteredItems.length : Int) =
      if i = 0 then (L : Int) - 1 else i - 1 := by
    rw [hi, hL]
    split_ifs with h
    · subst h
      have hrw : (0 : Int) + -1 = ((L : Int) - 1) + (L : Int) * (-1) := by ring
      rw [hrw, Int.add_mul_emod_self_left]
      exact Int.emod_eq_of_lt (by omega) (by omega)
    · exact Int.emod_eq_of_lt (by omega) (by omega)
  have hdown : (s.selectionIndex + 1) % (s.filteredItems.length : Int) =
      if i = (L : Int) - 1 then 0 else i + 1 := by
    rw [hi, hL]
    split_ifs with h
    · rw [h]
      simp
    · exact Int.emod_eq_of_lt (by omega) (by omega)
  refine ⟨?_, ?_, ?_, ?_⟩
  · rw [onData_upA, moveSelection_emod env (-1) s hne]
    exact hup
  · rw [onData_upO, moveSelection_emod env (-1) s hne]
    exact hup
  · rw [onData_downB, moveSelection_emod env 1 s hne]
    exact hdown
  · rw [onData_downO, moveSelection_emod env 1 s hne]
    exact hdown

/-- C6: on a non-empty filtered list of length L with current selection
index i, a Page-down chunk sets the selection to (i + 12) mod L and a
Page-up chunk sets it to (i - 12) mod L, where mod is the Euclidean
remainder, i.e. the non-negative representative. -/

theorem page_navigation (env : LiveEnv) (s : LiveState) (L : Nat) (i : Int)
    (hL : s.filteredItems.length = L) (hpos : 0 < L) (hi : s.selectionIndex = i) :
    ((onData env ['\x1b', '[', '6', '~'] s).1.selectionIndex = (i + 12) % (L : Int)) ∧
    ((onData env ['\x1b', '[', '5', '~'] s).1.selectionIndex = (i - 12) % (L : Int)) ∧
    (0 ≤ (i + 12) % (L : Int) ∧ (i + 12) % (L : Int) < (L : Int)) ∧
    (0 ≤ (i - 12) % (L : Int) ∧ (i - 12) % (L : Int) < (L : Int)) := by
  have hne : s.filteredItems.length ≠ 0 := by omega
  have hLpos : (0 : Int) < (L : Int) := by exact_mod_cast hpos
  refine ⟨?_, ?_, ⟨Int.emod_nonneg _ (by omega), Int.emod_lt_of_pos _ hLpos⟩,
    ⟨Int.emod_nonneg _ (by omega), Int.emod_lt_of_pos _ hLpos⟩⟩
  · rw [onData_pageDown, moveSelection_emod env MAX_VISIBLE_ITEMS s hne, hi, hL]
    rfl
  · rw [onData_pageUp, moveSelection_emod env (-MAX_VISIBLE_ITEMS) s hne, hi, hL]
    rfl

theorem selectionInvariant_ge (s : LiveState) (h : selectionInvariant s) :
    -1 ≤ s.selectionIndex := by
  unfold selectionInvariant at h
  split_ifs at h <;> omega

theorem clampSelectionIndex_inv (prev : Int) (len : Nat) (h : -1 ≤ prev) :
    (len = 0 → clampSelectionIndex prev len = -1) ∧
    (len ≠ 0 → 0 ≤ clampSelectionIndex prev len ∧
      clampSelectionIndex prev len < (len : Int)) := by
  unfold clampSelectionIndex
  split_ifs <;> constructor <;> intro hlen <;> omega

theorem updateFilteredItems_inv (env : LiveEnv) (s : LiveState)
    (h : -1 ≤ s.selectionIndex) : selectionInvariant (updateFilteredItems env s) := by
  unfold selectionInvariant updateFilteredItems
  have hc := clampSelectionIndex_inv s.selectionIndex
    (filterItems env.matcher s.searchQuery env.items).length h
  split_ifs with hlen
  · exact hc.1 hlen
  · exact hc.2 hlen

theorem render_inv (env : LiveEnv) (s : LiveState)
    (h : selectionInvariant s) : selectionInvariant (render env s) := h

theorem selectionInvariant_render_mk (env : LiveEnv) (q : List Char)
    (items : List PickerItem) (idx : Int) (n : Nat)
    (h : if items.length = 0 then idx = -1 else 0 ≤ idx ∧ idx < (items.length : Int)) :
    selectionInvariant (render env
      { searchQuery := q, filteredItems := items, selectionIndex := idx,
        lastRenderLineCount := n }) := h

theorem updateRender_inv (env : LiveEnv) (t : LiveState) (h : -1 ≤ t.selectionIndex) :
    selectionInvariant (render env (updateFilteredItems env t)) :=
  render_inv env _ (updateFilteredItems_inv env t h)

theorem moveSelection_inv (env : LiveEnv) (delta : Int) (s : LiveState)
    (h : selectionInvariant s) : selectionInvariant (moveSelection env delta s) := by
  unfold moveSelection
  split_ifs with hlen
  · exact h
  · have hpos : (0 : Int) < (s.filteredItems.length : Int) := by
      exact_mod_cast Nat.pos_of_ne_zero hlen
    have heq := tmod_shift_emod (s.selectionIndex + delta) (s.filteredItems.length : Int) hpos
    exact selectionInvariant_render_mk env _ _ _ _ (by
      rw [if_neg hlen, heq]
      exact ⟨Int.emod_nonneg _ (by omega), Int.emod_lt_of_pos _ hpos⟩)

set_option maxHeartbeats 1000000 in
theorem onData_inv (env : LiveEnv) (chunk : List Char) (s : LiveState)
    (h : selectionInvariant s) : selectionInvariant (onData env chunk s).1 := by
  have hge : -1 ≤ s.selectionIndex := selectionInvariant_ge s h
  unfold onData
  split_ifs
  · exact h
  · cases s.filteredItems.get? s.selectionIndex.toNat with
    | none => exact h
    | some selected => exact h
  · exact h
  · exact updateRender_inv env _ hge
  · exact h
  · exact moveSelection_inv env _ s h
  · exact moveSelection_inv env _ s h
  · exact moveSelection_inv env _ s h
  · exact moveSelection_inv env _ s h
  · exact updateRender_inv env _ hge
  · exact h
  · dsimp only
    split
    · exact updateRender_inv env _ hge
    · exact h

theorem processEvents_inv (env : LiveEnv) (events : List (List Char)) (s : LiveState)
    (h : selectionInvariant s) : selectionInvariant (processEvents env events s) := by
  induction events generalizing s with
  | nil => exact h
  | cons chunk rest ih =>
    unfold processEvents
    have hstep := onData_inv env chunk s h
    rcases hd : onData env chunk s with ⟨t, r⟩
    rw [hd] at hstep
    cases r with
    | none => exact ih t hstep
    | some result => exact hstep

theorem startState_inv (env : LiveEnv) : selectionInvariant (startState env) := by
  unfold startState
  apply render_inv
  apply updateFilteredItems_inv
  show -1 ≤ (if env.items.length > 0 then (0 : Int) else -1)
  split_ifs <;> omega

/-- C1: after any sequence of keystroke chunks processed by the live
picker, selectionIndex is -1 exactly when filteredItems is empty and a
valid index otherwise; and every refilter clamps the index exactly as:
empty list to -1, previous -1 with non-empty list to 0, previous index at
or past the new length to newLength - 1, and otherwise the previous index
is preserved. -/

theorem selection_clamping (env : LiveEnv) (events : List (List Char)) :
    selectionInvariant (processEvents env events (startState env)) ∧
    ∀ s : LiveState,
      ((updateFilteredItems env s).filteredItems.length = 0 →
        (updateFilteredItems env s).selectionIndex = -1) ∧
      ((updateFilteredItems env s).filteredItems.length ≠ 0 → s.selectionIndex = -1 →
        (updateFilteredItems env s).selectionIndex = 0) ∧
      ((updateFilteredItems env s).filteredItems.length ≠ 0 →
        s.selectionIndex ≥ ((updateFilteredItems env s).filteredItems.length : Int) →
        (updateFilteredItems env s).selectionIndex =
          ((updateFilteredItems env s).filteredItems.length : Int) - 1) ∧
      ((updateFilteredItems env s).filteredItems.length ≠ 0 → s.selectionIndex ≠ -1 →
        s.selectionIndex < ((updateFilteredItems env s).filteredItems.length : Int) →
        (updateFilteredItems env s).selectionIndex = s.selectionIndex) := by
  refine ⟨processEvents_inv env events (startState env) (startState_inv env), fun s => ?_⟩
  have hc : ∀ (prev : Int) (len : Nat),
      (len = 0 → clampSelectionIndex prev len = -1) ∧
      (len ≠ 0 → prev = -1 → clampSelectionIndex prev len = 0) ∧
      (len ≠ 0 → prev ≥ (len : Int) → clampSelectionIndex prev len = (len : Int) - 1) ∧
      (len ≠ 0 → prev ≠ -1 → prev < (len : Int) → clampSelectionIndex prev len = prev) := by
    intro prev len
    unfold clampSelectionIndex
    refine ⟨?_, ?_, ?_, ?_⟩ <;> intros <;> split_ifs <;> omega
  exact hc s.selectionIndex (filterItems env.matcher s.searchQuery env.items).length

theorem jsTrim_eq_nil_iff (q : List Char) :
    jsTrim q = [] ↔ ∀ c ∈ q, jsIsWhitespace c := by
  unfold jsTrim
  constructor
  · intro h c hc
    have h2 : (q.dropWhile jsIsWhitespace).reverse.dropWhile jsIsWhitespace = [] := by
      rwa [List.reverse_eq_nil_iff] at h
    have h4 : ∀ x ∈ q.dropWhile jsIsWhitespace, jsIsWhitespace x := by
      intro x hx
      exact List.dropWhile_eq_nil_iff.mp h2 x (List.mem_reverse.mpr hx)
    rw [← List.takeWhile_append_dropWhile jsIsWhitespace q] at hc
    rcases List.mem_append.mp hc with h5 | h5
    · exact List.mem_takeWhile_imp h5
    · exact h4 c h5
  · intro h
    rw [List.dropWhile_eq_nil_iff.mpr h]
    rfl

/-- C5: for every matcher behaviour and item list, a query whose
characters are all JavaScript whitespace (in particular the empty query)
bypasses the matcher and yields the item list unchanged, and any other
query yields exactly what the matcher produces. -/

theorem empty_query_bypass (matcher : List Char → List PickerItem → List PickerItem)
    (items : List PickerItem) (q : List Char) :
    ((∀ c ∈ q, jsIsWhitespace c) → filterItems matcher q items = items) ∧
    ((¬ ∀ c ∈ q, jsIsWhitespace c) → filterItems matcher q items = matcher q items) := by
  constructor
  · intro h
    unfold filterItems
    rw [if_pos (by rw [List.length_eq_zero]; exact (jsTrim_eq_nil_iff q).mpr h)]
  · intro h
    unfold filterItems
    rw [if_neg]
    intro hlen
    exact h ((jsTrim_eq_nil_iff q).mp (List.length_eq_zero.mp hlen))

theorem moveSelection_searchQuery (env : LiveEnv) (delta : Int) (s : LiveState) :
    (moveSelection env delta s).searchQuery = s.searchQuery := by
  unfold moveSelection
  split_ifs <;> rfl

set_option maxHeartbeats 1000000 in
theorem onData_induction (env : LiveEnv) (chunk : List Char) (s : LiveState)
    (P : LiveState → Prop)
    (hs : P s)
    (hmove : ∀ delta : Int, P (moveSelection env delta s))
    (happend : ∀ tail : List Char, (∀ c ∈ tail, ' ' ≤ c ∧ c ≤ '~') →
      P (render env (updateFilteredItems env
        { s with searchQuery := s.searchQuery ++ tail })))
    (hdrop : P (render env (updateFilteredItems env
      { s with searchQuery := s.searchQuery.dropLast }))) :
    P (onData env chunk s).1 := by
  unfold onData
  split_ifs with h1 h2 h3 h4 h5 h6 h7 h8 h9 h10 h11
  · exact hs
  · cases s.filteredItems.get? s.selectionIndex.toNat with
    | none => exact hs
    | some selected => exact hs
  · exact hs
  · exact hdrop
  · exact hs
  · exact hmove (-1)
  · exact hmove 1
  · exact hmove (-MAX_VISIBLE_ITEMS)
  · exact hmove MAX_VISIBLE_ITEMS
  · refine happend chunk ?_
    obtain ⟨c0, hc0⟩ := List.length_eq_one.mp h10.1
    subst hc0
    intro c hc
    rcases List.mem_singleton.mp hc with rfl
    exact ⟨h10.2.1, h10.2.2⟩
  · exact hs
  · dsimp only
    split
    · refine happend _ ?_
      intro c hc
      have hp := (List.mem_filter.mp hc).2
      simp only [Bool.and_eq_true, decide_eq_true_eq] at hp
      exact hp
    · exact hs

theorem onData_printable (env : LiveEnv) (chunk : List Char) (s : LiveState)
    (h : ∀ c ∈ s.searchQuery, ' ' ≤ c ∧ c ≤ '~') :
    ∀ c ∈ (onData env chunk s).1.searchQuery, ' ' ≤ c ∧ c ≤ '~' := by
  refine onData_induction env chunk s
    (fun t => ∀ c ∈ t.searchQuery, ' ' ≤ c ∧ c ≤ '~') h ?_ ?_ ?_
  · intro delta
    rw [moveSelection_searchQuery]
    exact h
  · intro tail htail c hc
    rcases List.mem_append.mp hc with hm | hm
    · exact h c hm
    · exact htail c hm
  · intro c hc
    exact h c (List.dropLast_subset s.searchQuery hc)

theorem processEvents_printable (env : LiveEnv) (events : List (List Char)) (s : LiveState)
    (h : ∀ c ∈ s.searchQuery, ' ' ≤ c ∧ c ≤ '~') :
    ∀ c ∈ (processEvents env events s).searchQuery, ' ' ≤ c ∧ c ≤ '~' := by
  induction events generalizing s with
  | nil => exact h
  | cons chunk rest ih =>
    unfold processEvents
    have hstep := onData_printable env chunk s h
    rcases hd : onData env chunk s with ⟨t, r⟩
    rw [hd] at hstep
    cases r with
    | none => exact ih t hstep
    | some result => exact hstep

theorem startState_printable (env : LiveEnv) :
    ∀ c ∈ (startState env).searchQuery, ' ' ≤ c ∧ c ≤ '~' := by
  intro c hc
  cases hc

/-- C10: after any sequence of input chunks, the query contains only
printable ASCII characters (space through tilde); moreover a backspace
chunk removes exactly the last character of the query (and leaves an empty
query empty). -/

theorem query_printable_ascii (env : LiveEnv) (events : List (List Char)) :
    (∀ c ∈ (processEvents env events (startState env)).searchQuery, ' ' ≤ c ∧ c ≤ '~') ∧
    (∀ s : LiveState, (onData env ['\x7f'] s).1.searchQuery = s.searchQuery.dropLast) := by
  refine ⟨processEvents_printable env events (startState env) (startState_printable env), ?_⟩
  intro s
  unfold onData
  rw [if_neg (by decide), if_neg (by decide), if_pos (by decide)]
  split_ifs with hq
  · rfl
  · have : s.searchQuery = [] := by
      cases hsq : s.searchQuery with
      | nil => rfl
      | cons a t => rw [hsq] at hq; simp at hq
    rw [this]
    rfl

theorem clearPreviousLinesCount_eq (n : Nat) : clearPreviousLinesCount n = n := by
  unfold clearPreviousLinesCount
  split_ifs with h
  · omega
  · rfl

theorem renderSession_head_erased (inputs : List (LiveEnv × LiveState)) (c : Nat)
    (h : 0 < (renderSession inputs c).length) :
    ((renderSession inputs c).getD 0 (0, 0, 0)).1 = c := by
  cases inputs with
  | nil => simp [renderSession] at h
  | cons p rest =>
    rcases p with ⟨env, s⟩
    simp [renderSession, clearPreviousLinesCount_eq]

theorem renderSession_chain (inputs : List (LiveEnv × LiveState)) (c : Nat) (i : Nat)
    (h : i + 1 < (renderSession inputs c).length) :
    ((renderSession inputs c).getD (i + 1) (0, 0, 0)).1 =
      ((renderSession inputs c).getD i (0, 0, 0)).2.1 := by
  induction inputs generalizing c i with
  | nil => simp [renderSession] at h
  | cons p rest ih =>
    rcases p with ⟨env, s⟩
    cases i with
    | zero =>
      have hrest : 0 < (renderSession rest (renderLines env s).length).length := by
        simp only [renderSession, List.length_cons] at h
        omega
      show ((renderSession rest (renderLines env s).length).getD 0 (0, 0, 0)).1 = _
      rw [renderSession_head_erased _ _ hrest]
      rfl
    | succ j =>
      have hj : j + 1 < (renderSession rest (renderLines env s).length).length := by
        simp only [renderSession, List.length_cons] at h
        omega
      exact ih (renderLines env s).length j hj

theorem renderSession_tracker (inputs : List (LiveEnv × LiveState)) (c : Nat) (i : Nat)
    (h : i < (renderSession inputs c).length) :
    ((renderSession inputs c).getD i (0, 0, 0)).2.2 =
      ((renderSession inputs c).getD i (0, 0, 0)).2.1 := by
  induction inputs generalizing c i with
  | nil => simp [renderSession] at h
  | cons p rest ih =>
    rcases p with ⟨env, s⟩
    cases i with
    | zero => rfl
    | succ j =>
      have hj : j < (renderSession rest (renderLines env s).length).length := by
        simp only [renderSession, List.length_cons] at h
        omega
      exact ih (renderLines env s).length j hj

/-- C3: in any sequence of consecutive render calls starting from the
initial tracker value 0, the very first render erases zero lines, each
later render erases exactly the number of lines emitted by the
immediately preceding render, and after every render the tracker equals
the number of lines just emitted. -/

theorem redraw_line_accounting (inputs : List (LiveEnv × LiveState)) :
    (0 < (renderSession inputs 0).length →
      ((renderSession inputs 0).getD 0 (0, 0, 0)).1 = 0) ∧
    (∀ i, i + 1 < (renderSession inputs 0).length →
      ((renderSession inputs 0).getD (i + 1) (0, 0, 0)).1 =
        ((renderSession inputs 0).getD i (0, 0, 0)).2.1) ∧
    (∀ i, i < (renderSession inputs 0).length →
      ((renderSession inputs 0).getD i (0, 0, 0)).2.2 =
        ((renderSession inputs 0).getD i (0, 0, 0)).2.1) :=
  ⟨fun h => renderSession_head_erased inputs 0 h,
   fun i h => renderSession_chain inputs 0 i h,
   fun i h => renderSession_tracker inputs 0 i h⟩

/-- C7: whichever entry statement throws (raw-mode acquisition, cursor
hiding, first render, ...), the picker resolves as cancellation (null) and
the effect trace ends with the catch handler's cleanup: the
cursor-visibility restore happens exactly once in the whole trace, the
listener removal and stdin pause exactly once, and the raw-mode restore to
the original flag exactly once after the failure (the only earlier
setRawMode call can be the acquisition itself, which sets true). -/
theorem cancellation_restores_resources (originalRawMode : Bool) (k : Nat) (hk : k ≤ 6) :
    (runLivePickerStart true originalRawMode (some k)).2 = some none ∧
    (runLivePickerStart true originalRawMode (some k)).1 =
      ((setupSteps true).take k).flatten ++
        [TermEffect.showCursor, TermEffect.setRawMode originalRawMode,
         TermEffect.removeDataListener, TermEffect.pauseInput] ∧
    (runLivePickerStart true originalRawMode (some k)).1.count TermEffect.showCursor = 1 ∧
    (runLivePickerStart true originalRawMode (some k)).1.count TermEffect.removeDataListener = 1 ∧
    (runLivePickerStart true originalRawMode (some k)).1.count TermEffect.pauseInput = 1 ∧
    (catchEffects true originalRawMode).count (TermEffect.setRawMode originalRawMode) = 1 ∧
    (originalRawMode = false →
      (runLivePickerStart true originalRawMode (some k)).1.count
        (TermEffect.setRawMode false) = 1) := by
  interval_cases k <;> cases originalRawMode <;> decide

/-- Witness for `cancellation_restores_resources`: failure at step 0
(raw-mode acquisition itself throws) with original raw mode off resolves
null. -/

theorem cancellation_restores_resources_witness :
    (runLivePickerStart true false (some 0)).2 = some none :=
  (cancellation_restores_resources false 0 (by decide)).1

/-- C8: with non-empty combined input and a capability probe reporting a
non-interactive terminal, the live picker is never engaged and raw mode is
never requested; the static fallback prompt is shown exactly once with the
combined choice list, worktrees first then suggestions, and the result is
the chosen tagged selection, or null on cancel. -/
theorem fallback_mode (stdinTTY stdoutTTY hasSetRawMode : Bool) (home : String)
    (worktrees : List Worktree) (suggestions : List WorktreeSuggestion)
    (options : PickerOptions) (pick : Option Nat) (liveResult : Option WorktreeSelection)
    (hne : ¬(worktrees.length = 0 ∧ suggestions.length = 0))
    (htty : ¬stdinTTY ∨ ¬stdoutTTY ∨ ¬hasSetRawMode) :
    (pickWorktree stdinTTY stdoutTTY hasSetRawMode home worktrees suggestions options
        pick liveResult).1 =
      [PickEffect.ttyCheck,
       PickEffect.fallbackPrompt (fallbackChoices home options worktrees suggestions)] ∧
    (∀ items, PickEffect.livePicker items ∉
      (pickWorktree stdinTTY stdoutTTY hasSetRawMode home worktrees suggestions options
        pick liveResult).1) ∧
    PickEffect.rawModeRequest ∉
      (pickWorktree stdinTTY stdoutTTY hasSetRawMode home worktrees suggestions options
        pick liveResult).1 ∧
    (pick = none →
      (pickWorktree stdinTTY stdoutTTY hasSetRawMode home worktrees suggestions options
        pick liveResult).2 = none) ∧
    (∀ i choice, pick = some i →
      (fallbackChoices home options worktrees suggestions).get? i = some choice →
      (pickWorktree stdinTTY stdoutTTY hasSetRawMode home worktrees suggestions options
        pick liveResult).2 = some choice.value) := by
  have hpw : pickWorktree stdinTTY stdoutTTY hasSetRawMode home worktrees suggestions
      options pick liveResult =
      (PickEffect.ttyCheck :: (fallbackPickWorktree home options worktrees suggestions pick).1,
       (fallbackPickWorktree home options worktrees suggestions pick).2) := by
    unfold pickWorktree
    rw [if_neg hne, if_pos htty]
  rw [hpw]
  refine ⟨rfl, ?_, ?_, ?_, ?_⟩
  · intro items hmem
    simp only [fallbackPickWorktree, List.mem_cons, List.mem_singleton] at hmem
    rcases hmem with h | h
    · exact PickEffect.noConfusion h
    · simp at h
  · intro hmem
    simp only [fallbackPickWorktree, List.mem_cons, List.mem_singleton] at hmem
    rcases hmem with h | h
    · exact PickEffect.noConfusion h
    · simp at h
  · intro hpick
    subst hpick
    rfl
  · intro i choice hpick hchoice
    subst hpick
    show (match ((fallbackChoices home options worktrees suggestions).get? i).map
        FallbackChoice.value with
      | none => none
      | some v => if isWorktreeSelection v then some v else none) = some choice.value
    rw [hchoice]
    cases hv : choice.value <;> simp [isWorktreeSelection, hv]

/-- Witness for `fallback_mode`: one worktree, no suggestions, no TTY;
picking index 0 returns that worktree's tagged selection. -/

theorem fallback_mode_witness :
    (pickWorktree false false false "" [worktreeA] [] optionsEx (some 0) none).2 =
      some (WorktreeSelection.worktree worktreeA) := by
  have h := (fallback_mode false false false "" [worktreeA] [] optionsEx (some 0) none
    (by decide) (by simp)).2.2.2.2 0
    { value := WorktreeSelection.worktree worktreeA,
      label := (formatWorktreeDisplay "" none worktreeA).label,
      hint := (formatWorktreeDisplay "" none worktreeA).hint } rfl rfl
  exact h

/-- C9 counterexample: with both lists empty, `pickWorktree` returns null
with an empty effect trace, so contrary to the claim the TTY capability
check is never performed (the empty-input return precedes it). -/

theorem empty_input_no_tty_check :
    pickWorktree false false false "" [] [] optionsEx none none = ([], none) ∧
    PickEffect.ttyCheck ∉ (pickWorktree false false false "" [] [] optionsEx none none).1 := by
  constructor
  · rfl
  · intro hmem
    simp only [pickWorktree] at hmem
    simp at hmem

/-- C9 (amended): with both lists empty, `pickWorktree` returns null
immediately, before the TTY capability check: no effects at all are
produced (no TTY read, no live picker, no fallback prompt, no terminal
side effects) and the result is null, for every capability probe and
interaction. -/

theorem empty_input_returns_null (stdinTTY stdoutTTY hasSetRawMode : Bool)
    (home : String) (options : PickerOptions) (pick : Option Nat)
    (liveResult : Option WorktreeSelection) :
    pickWorktree stdinTTY stdoutTTY hasSetRawMode home [] [] options pick
      liveResult = ([], none) := by
  unfold pickWorktree
  rw [if_pos ⟨rfl, rfl⟩]

/-- Witness for `selection_clamping`: typing the letter x in the two-item
session refilters through the always-empty matcher and the invariant
holds; the clamp applied to a concrete state with previous index -1 and a
non-empty refilter result yields 0. -/
theorem selection_clamping_witness :
    selectionInvariant (processEvents envAB [['x']] (startState envAB)) ∧
    (updateFilteredItems envAB
      { searchQuery := [], filteredItems := [], selectionIndex := -1,
        lastRenderLineCount := 0 }).selectionIndex = 0 := by
  refine ⟨(selection_clamping envAB [['x']]).1, ?_⟩
  have h := ((selection_clamping envAB []).2
    { searchQuery := [], filteredItems := [], selectionIndex := -1,
      lastRenderLineCount := 0 }).2.1
  exact h (by decide) (by decide)

/-- Witness for `redraw_line_accounting`: a two-render session over the
two-item environment; the second render erases what the first emitted. -/

theorem redraw_line_accounting_witness :
    ((renderSession [(envAB, startState envAB), (envAB, startState envAB)] 0).getD 1
      (0, 0, 0)).1 =
      ((renderSession [(envAB, startState envAB), (envAB, startState envAB)] 0).getD 0
        (0, 0, 0)).2.1 ∧
    ((renderSession [(envAB, startState envAB), (envAB, startState envAB)] 0).getD 0
      (0, 0, 0)).1 = 0 :=
  ⟨(redraw_line_accounting [(envAB, startState envAB), (envAB, startState envAB)]).2.1 0
      (by decide),
   (redraw_line_accounting [(envAB, startState envAB), (envAB, startState envAB)]).1
      (by decide)⟩

/-- Witness for `empty_query_bypass`: a single-space query bypasses the
always-empty matcher and returns the two items unchanged. -/

theorem empty_query_bypass_witness :
    filterItems (fun _ _ => []) [' '] envAB.items = envAB.items :=
  (empty_query_bypass (fun _ _ => []) envAB.items [' ']).1 (by decide)

/-- Witness for `query_printable_ascii`: after typing x then a backspace,
the query is all printable ASCII, and backspace on a concrete one-char
query drops it. -/

theorem query_printable_ascii_witness :
    (∀ c ∈ (processEvents envAB [['x'], ['\x7f']] (startState envAB)).searchQuery,
      ' ' ≤ c ∧ c ≤ '~') ∧
    (onData envAB ['\x7f'] (startState envAB)).1.searchQuery =
      (startState envAB).searchQuery.dropLast :=
  ⟨(query_printable_ascii envAB [['x'], ['\x7f']]).1,
   (query_printable_ascii envAB []).2 (startState envAB)⟩

/-- Witness for `wraparound_navigation`: in the two-item session just
after start (selection at 0), Up wraps to index 1. -/

theorem wraparound_navigation_witness :
    (onData envAB ['\x1b', '[', 'A'] (startState envAB)).1.selectionIndex = 1 := by
  have h := (wraparound_navigation envAB (startState envAB) 2 0 (by decide) (by decide)
    (by decide) (by decide) (by decide)).1
  rw [h]
  decide

/-- Witness for `page_navigation`: in the two-item session just after
start (selection at 0), Page-down lands on (0 + 12) mod 2 = 0. -/

theorem page_navigation_witness :
    (onData envAB ['\x1b', '[', '6', '~'] (startState envAB)).1.selectionIndex = 0 := by
  have h := (page_navigation envAB (startState envAB) 2 0 (by decide) (by decide)
    (by decide)).1
  rw [h]
  decide

/-- C2: with maxVisible = 12 the viewport calculator returns
(0, total) whenever total ≤ 12 (hence (0, 0) for total = 0), and otherwise
start = max 0 (selectedIndex - floor(12/2)) pulled back to total - 12
whenever start + 12 > total, with the window ending at
min (start + 12) total; in particular computeVisibleWindow 20 15 = (8, 20)
and computeVisibleWindow 5 2 = (0, 5). -/

theorem viewport_correctness :
    (∀ total selectedIndex : Int, 0 ≤ total →
      (total ≤ 12 → computeVisibleWindow total selectedIndex = (0, total)) ∧
      (12 < total →
        computeVisibleWindow total selectedIndex =
          (if max 0 (selectedIndex - 6) + 12 > total then total - 12
           else max 0 (selectedIndex - 6),
           min ((if max 0 (selectedIndex - 6) + 12 > total then total - 12
           else max 0 (selectedIndex - 6)) + 12) total))) ∧
    computeVisibleWindow 20 15 = (8, 20) ∧
    computeVisibleWindow 5 2 = (0, 5) ∧
    computeVisibleWindow 0 (-1) = (0, 0) := by
  refine ⟨fun total selectedIndex _ => ⟨fun h12 => ?_, fun h12 => ?_⟩, by decide, by decide, by decide⟩
  · simp only [computeVisibleWindow, MAX_VISIBLE_ITEMS]
    rw [if_pos h12]
  · simp only [computeVisibleWindow, MAX_VISIBLE_ITEMS]
    rw [if_neg (by omega)]
    norm_num

/-- Witness for `viewport_correctness` at total = 13, selectedIndex = 3. -/
theorem viewport_correctness_witness :
    computeVisibleWindow 13 3 =
      (if max 0 ((3 : Int) - 6) + 12 > 13 then (13 : Int) - 12 else max 0 ((3 : Int) - 6),
       min ((if max 0 ((3 : Int) - 6) + 12 > 13 then (13 : Int) - 12
         else max 0 ((3 : Int) - 6)) + 12) 13) :=
  ((viewport_correctness.1 13 3 (by decide)).2 (by decide))

end WorktreePicker
